import Mathlib

/-!
Shallow embedding of `kuma/attachments/views.py`: the three request handlers
`raw_file`, `mindtouch_file_redirect` and `edit_attachment`, together with the
slice of the data model (Attachment, AttachmentRevision, Document) they touch.

External collaborators that are not part of the source file (the ORM lookup,
the trust classifier `is_untrusted`, the permission predicate
`allow_add_attachment_by`, the HTTP-date formatter `convert_to_http_date`,
`Attachment.get_file_url`, the form-validation framework) are modelled either
as explicit parameters or as attributes carried by the records, following the
spec's description of those collaborators.
-/

namespace Kuma

/-- A stored file handle. `content` is the stored byte sequence; `size` models
the storage size query: `some n` when the query succeeds with value `n`,
`none` when the underlying storage raises `OSError`. -/
structure FileObj where
  content : List Nat
  size : Option Nat
  deriving Repr, DecidableEq

/-- One uploaded file version (`AttachmentRevision`). `creator` and
`attachment` are `none` until set by the upload handler; `id` is 0 until the
revision is persisted. -/
structure AttachmentRevision where
  id : Nat := 0
  title : String
  file : FileObj
  mime_type : String
  created : Nat
  creator : Option Nat := none
  attachment : Option Nat := none
  deriving Repr, DecidableEq

/-- An uploaded file family (`Attachment`). `file_url` carries the result of
`Attachment.get_file_url` — modelled from the spec as the attachment's stored
canonical file URL, since `kuma.attachments.models` is not part of the given
source. `mindtouch_attachment_id` is the optional legacy-system identifier. -/
structure Attachment where
  id : Nat
  title : String
  mindtouch_attachment_id : Option Nat := none
  current_revision : Option AttachmentRevision := none
  file_url : String := ""
  deriving Repr, DecidableEq

/-- A wiki document, resolved by (locale, slug). `edit_url` carries the result
of `Document.get_edit_url`, modelled from the spec as a stored attribute. -/
structure Document where
  id : Nat
  locale : String
  slug : String
  edit_url : String
  deriving Repr, DecidableEq

/-- The authenticated-identity value attached to a request.
`is_authenticated = false` models an anonymous user. -/
structure User where
  id : Nat
  is_authenticated : Bool
  deriving Repr, DecidableEq

/-- Modelled from the spec: the bound `AttachmentRevisionForm` built from the
request's POST data and files (`kuma.attachments.forms` is not part of the
given source). The validation framework is abstracted into the `errors` list:
the form is valid exactly when `errors` is empty. -/
structure BoundForm where
  title : String
  file : FileObj
  mime_type : String
  created : Nat
  errors : List String
  deriving Repr, DecidableEq

/-- Modelled from the spec: `form.is_valid()` of the external validation
framework — true exactly when the bound form carries no field errors. -/
def BoundForm.is_valid (f : BoundForm) : Bool :=
  f.errors.isEmpty

/-- Modelled from the spec: `form.save(commit=False)` constructs the revision
from form data without persisting it. -/
def BoundForm.save_no_commit (f : BoundForm) : AttachmentRevision :=
  { title := f.title, file := f.file, mime_type := f.mime_type,
    created := f.created }

/-- An incoming HTTP request, reduced to the attributes the handlers read.
`untrusted` carries the verdict of the external trust classifier
`kuma.core.utils.is_untrusted`; `form` is the bound upload form built from
`request.POST` and `request.FILES`. -/
structure Request where
  method : String
  user : User
  untrusted : Bool
  form : BoundForm
  deriving Repr, DecidableEq

/-- Modelled from the spec: the external request-trust classifier keyed on
request origin/host. Its verdict is carried on the request descriptor. -/
def is_untrusted (request : Request) : Bool :=
  request.untrusted

/-- Django settings the handlers read: `settings.DEBUG` and
`settings.DOMAIN`. -/
structure Settings where
  DEBUG : Bool
  DOMAIN : String
  deriving Repr, DecidableEq

/-- The persistent state visible to the handlers: the attachment table, the
persisted revision table, the document/attachment association table
(document id, attachment id, acting user id, revision id), and the next free
primary keys. -/
structure DbState where
  attachments : List Attachment
  revisions : List AttachmentRevision
  document_files : List (Nat × Nat × Nat × Nat)
  next_attachment_id : Nat
  next_revision_id : Nat
  deriving Repr, DecidableEq

/-- ORM lookup `Attachment.objects.get(pk=attachment_id)`, returning `none`
where Django raises `DoesNotExist` (which `get_object_or_404` turns into a
404). -/
def DbState.get_attachment (st : DbState) (attachment_id : Nat) :
    Option Attachment :=
  st.attachments.find? (fun a => a.id == attachment_id)

/-- ORM lookup `Attachment.objects.get(mindtouch_attachment_id=file_id)`. -/
def DbState.get_by_mindtouch_id (st : DbState) (file_id : Nat) :
    Option Attachment :=
  st.attachments.find? (fun a => a.mindtouch_attachment_id == some file_id)

/-- ORM lookup `Document.objects.get(locale=..., slug=...)` over the document
table, which the attachment handlers only read. -/
def find_document (docs : List Document) (locale slug : String) :
    Option Document :=
  docs.find? (fun d => d.locale == locale && d.slug == slug)

/-- The headers of a streamed file response as `raw_file` builds them.
`content_length` is `none` when the storage size query failed and the header
was omitted. `cc_public`/`cc_max_age` record the `cache_control` decorator's
directive. -/
structure StreamedFile where
  body : List Nat
  content_type : String
  content_length : Option Nat
  last_modified : String
  x_frame_options : String
  cc_public : Bool
  cc_max_age : Nat
  deriving Repr, DecidableEq

/-- The HTTP responses the three handlers can produce. `redirect b target`
is permanent (301) when `b = true` and temporary (302) otherwise;
`rendered tmpl form doc` is a 200 template render with the bound form and the
document in context; `login_redirect` is the login challenge issued by the
`login_required` decorator. -/
inductive HttpResponse where
  | not_found : HttpResponse
  | permission_denied : HttpResponse
  | login_redirect : HttpResponse
  | streaming : StreamedFile → HttpResponse
  | redirect : Bool → String → HttpResponse
  | rendered : String → BoundForm → Nat → HttpResponse
  deriving Repr, DecidableEq

/-- The HTTP status code of each response shape. -/
def HttpResponse.status : HttpResponse → Nat
  | .not_found => 404
  | .permission_denied => 403
  | .login_redirect => 302
  | .streaming _ => 200
  | .redirect true _ => 301
  | .redirect false _ => 302
  | .rendered _ _ _ => 200

/-- Whether the response streams file content. -/
def HttpResponse.is_streaming : HttpResponse → Bool
  | .streaming _ => true
  | _ => false

/-- Handler `raw_file(request, attachment_id, filename)`.

`http_date` models the external HTTP-date formatter
`kuma.attachments.utils.convert_to_http_date` applied to the revision's
creation time. The `settings.DEBUG` pre-read workaround reads and discards
one chunk purely to initialise backend state; the streamed body is the stored
content either way, so the branch leaves the pure result unchanged. The
`filename` argument is accepted and never read, exactly as in the source. -/
def raw_file (settings : Settings) (http_date : Nat → String) (st : DbState)
    (request : Request) (attachment_id : Nat) (filename : String) :
    HttpResponse :=
  match st.get_attachment attachment_id with
  | none => .not_found
  | some attachment =>
    match attachment.current_revision with
    | none => .not_found
    | some rev =>
      if is_untrusted request then
        .streaming
          { body := rev.file.content
            content_type := rev.mime_type
            content_length := rev.file.size
            last_modified := http_date rev.created
            x_frame_options := "ALLOW-FROM " ++ settings.DOMAIN
            cc_public := true
            cc_max_age := 60 * 15 }
      else
        .redirect true attachment.file_url

/-- Handler `mindtouch_file_redirect(request, file_id, filename)`. The
`filename` argument is accepted and never read, exactly as in the source. -/
def mindtouch_file_redirect (st : DbState) (request : Request)
    (file_id : Nat) (filename : String) : HttpResponse :=
  match st.get_by_mindtouch_id file_id with
  | none => .not_found
  | some attachment => .redirect true attachment.file_url

/-- One persistence write performed by `edit_attachment`, in handler order:
`Attachment.objects.create(title=...)`, then `revision.save()` (recording
attachment id, creator id, title), then `attachment.attach(document, user,
revision)` on the document/attachment association. -/
inductive Effect where
  | create_attachment : Nat → String → Effect
  | save_revision : Nat → Nat → Nat → String → Effect
  | attach_to_document : Nat → Nat → Nat → Nat → Effect
  deriving Repr, DecidableEq

/-- Modelled from the spec: `attachment.attach(document, request.user,
revision)` (`kuma.attachments.models` is not part of the given source)
associates the attachment with the document on the many-to-many table,
recording the acting user and the revision. -/
def attach (st : DbState) (attachment_id document_id user_id revision_id :
    Nat) : DbState :=
  { st with document_files :=
      st.document_files ++ [(document_id, attachment_id, user_id,
        revision_id)] }

/-- Handler `edit_attachment(request, document_slug, document_locale)`.

The `login_required` decorator issues a login challenge for anonymous users;
`get_object_or_404(Document, locale=..., slug=...)` resolves the document;
non-POST requests are redirected (temporary) to the document's edit URL;
POSTs without upload permission raise `PermissionDenied`; a valid form
creates the revision (uncommitted), sets its creator, creates the
attachment from the revision's title, links and persists the revision, then
attaches it to the document; an invalid form re-renders the template.

`allow_add_attachment_by` is the external permission predicate from
`kuma.attachments.utils`, passed in as a parameter. The result is the
response, the new persistent state, and the ordered trace of writes. -/
def edit_attachment (docs : List Document)
    (allow_add_attachment_by : User → Bool) (st : DbState)
    (request : Request) (document_slug document_locale : String) :
    HttpResponse × DbState × List Effect :=
  if ¬ request.user.is_authenticated then
    (.login_redirect, st, [])
  else
    match find_document docs document_locale document_slug with
    | none => (.not_found, st, [])
    | some document =>
      if request.method ≠ "POST" then
        (.redirect false document.edit_url, st, [])
      else if ¬ allow_add_attachment_by request.user then
        (.permission_denied, st, [])
      else
        let form := request.form
        if form.is_valid then
          let revision := form.save_no_commit
          let revision := { revision with creator := some request.user.id }
          let aid := st.next_attachment_id
          let attachment : Attachment := { id := aid, title := revision.title }
          let revision := { revision with attachment := some aid }
          let rid := st.next_revision_id
          let revision := { revision with id := rid }
          let st1 : DbState :=
            { st with attachments := st.attachments ++ [attachment],
                      revisions := st.revisions ++ [revision],
                      next_attachment_id := aid + 1,
                      next_revision_id := rid + 1 }
          let st2 := attach st1 aid document.id request.user.id rid
          (.redirect false document.edit_url, st2,
            [.create_attachment aid revision.title,
             .save_revision rid aid request.user.id revision.title,
             .attach_to_document aid document.id request.user.id rid])
        else
          (.rendered "attachments/edit_attachment.html" form document.id,
            st, [])

/-! Concrete fixtures used by the witnesses and counterexamples. -/

/-- A stored file whose storage size query succeeds. -/
def sampleFile : FileObj := { content := [104, 105], size := some 2 }

/-- A stored file whose storage size query raises `OSError`. -/
def sampleFileNoSize : FileObj := { content := [104, 105], size := none }

/-- A persisted revision backed by `sampleFile`. -/
def sampleRev : AttachmentRevision :=
  { id := 11, title := "pic", file := sampleFile, mime_type := "image/png",
    created := 5, creator := some 10, attachment := some 1 }

/-- A persisted revision whose file cannot report its size. -/
def sampleRevNoSize : AttachmentRevision :=
  { id := 12, title := "nosize", file := sampleFileNoSize,
    mime_type := "text/plain", created := 6, creator := some 10,
    attachment := some 3 }

/-- An attachment with a current revision and a legacy identifier. -/
def sampleAttachment : Attachment :=
  { id := 1, title := "pic", mindtouch_attachment_id := some 7,
    current_revision := some sampleRev, file_url := "/files/1/pic.png" }

/-- An attachment whose current revision is `None` but that still carries a
legacy identifier. -/
def attachmentNoRev : Attachment :=
  { id := 2, title := "empty", mindtouch_attachment_id := some 9,
    current_revision := none, file_url := "/files/2/empty" }

/-- An attachment whose current revision's file cannot report its size. -/
def attachmentNoSize : Attachment :=
  { id := 3, title := "nosize", mindtouch_attachment_id := none,
    current_revision := some sampleRevNoSize, file_url := "/files/3/nosize" }

/-- A small attachment table covering the three serving cases. -/
def sampleDb : DbState :=
  { attachments := [sampleAttachment, attachmentNoRev, attachmentNoSize],
    revisions := [sampleRev, sampleRevNoSize],
    document_files := [],
    next_attachment_id := 4,
    next_revision_id := 13 }

/-- A bound upload form that validates. -/
def validForm : BoundForm :=
  { title := "pic", file := sampleFile, mime_type := "image/png",
    created := 5, errors := [] }

/-- A bound upload form rejected by validation with one field error. -/
def invalidForm : BoundForm :=
  { title := "", file := sampleFile, mime_type := "image/png",
    created := 5, errors := ["This field is required."] }

/-- An authenticated user. -/
def sampleUser : User := { id := 10, is_authenticated := true }

/-- A GET request classified untrusted. -/
def untrustedGet : Request :=
  { method := "GET", user := sampleUser, untrusted := true,
    form := validForm }

/-- A GET request classified trusted. -/
def trustedGet : Request :=
  { method := "GET", user := sampleUser, untrusted := false,
    form := validForm }

/-- A POST carrying the valid upload form. -/
def validPost : Request :=
  { method := "POST", user := sampleUser, untrusted := true,
    form := validForm }

/-- A POST carrying the invalid upload form. -/
def invalidPost : Request :=
  { method := "POST", user := sampleUser, untrusted := true,
    form := invalidForm }

/-- Concrete Django settings. -/
def sampleSettings : Settings :=
  { DEBUG := false, DOMAIN := "developer.mozilla.org" }

/-- A concrete stand-in for the external HTTP-date formatter. -/
def sampleHttpDate (t : Nat) : String := "http-date " ++ toString t

/-- A concrete document table with one document. -/
def sampleDoc : Document :=
  { id := 21, locale := "en-US", slug := "Article",
    edit_url := "/en-US/docs/Article/edit" }

/-- The document table used by the upload-handler witnesses. -/
def sampleDocs : List Document := [sampleDoc]

/-- A permission predicate granting upload permission to everyone. -/
def permAll (u : User) : Bool := true

/-- A permission predicate denying upload permission to everyone. -/
def permNone (u : User) : Bool := false

/-- Helper: when the filter of a predicate over a list is a singleton, the
first match found by `find?` is that very element. -/
theorem find?_eq_of_filter_eq_singleton {α : Type} (p : α → Bool)
    (l : List α) (a : α) (h : l.filter p = [a]) : l.find? p = some a := by
  induction l with
  | nil => simp at h
  | cons x xs ih =>
    by_cases hx : p x = true
    · rw [List.filter_cons_of_pos hx] at h
      obtain ⟨hxa, -⟩ := List.cons_eq_cons.mp h
      rw [List.find?_cons_of_pos _ hx, hxa]
    · rw [List.filter_cons_of_neg (by simpa using hx)] at h
      rw [List.find?_cons_of_neg _ (by simpa using hx)]
      exact ih h

/-- C1 (amended): `raw_file` results in not-found exactly when the attachment
does not exist or its current revision is `None`; `mindtouch_file_redirect`
results in not-found exactly when no attachment matches the legacy
identifier — it does not additionally treat a matched attachment with no
current revision as not found. -/
theorem raw_file_not_found_iff (s : Settings) (hd : Nat → String)
    (st : DbState) (req : Request) (aid fid : Nat) (fn : String) :
    (raw_file s hd st req aid fn = .not_found ↔
      st.get_attachment aid = none ∨
        ∃ a, st.get_attachment aid = some a ∧ a.current_revision = none) ∧
    (mindtouch_file_redirect st req fid fn = .not_found ↔
      st.get_by_mindtouch_id fid = none) := by
  constructor
  · cases h : st.get_attachment aid with
    | none => simp [raw_file, h]
    | some a =>
      cases hr : a.current_revision with
      | none => simp [raw_file, h, hr]
      | some rev =>
        by_cases hu : is_untrusted req = true
        · simp [raw_file, h, hr, hu]
        · simp [raw_file, h, hr, hu]
  · cases h : st.get_by_mindtouch_id fid with
    | none => simp [mindtouch_file_redirect, h]
    | some a => simp [mindtouch_file_redirect, h]

/-- C1 counterexample: an attachment record exists whose legacy identifier
matches and whose current revision is `None`, yet `mindtouch_file_redirect`
issues a permanent redirect instead of a 404. -/
theorem mindtouch_no_revision_counterexample :
    sampleDb.get_by_mindtouch_id 9 = some attachmentNoRev ∧
    attachmentNoRev.current_revision = none ∧
    mindtouch_file_redirect sampleDb untrustedGet 9 "empty.png" =
      .redirect true "/files/2/empty" ∧
    (mindtouch_file_redirect sampleDb untrustedGet 9 "empty.png").status ≠
      404 := by
  refine ⟨rfl, rfl, rfl, by decide⟩

/-- C2: for an existing attachment with a current revision, an untrusted
request to `raw_file` gets a 200 streaming response whose body is the
revision's stored bytes, content type its MIME type, Last-Modified derived
from the revision's creation time, a public max-age-900 cache directive, and
an ALLOW-FROM framing header naming the application domain. -/
theorem raw_file_untrusted_serves (s : Settings) (hd : Nat → String)
    (st : DbState) (req : Request) (aid : Nat) (fn : String)
    (a : Attachment) (rev : AttachmentRevision)
    (ha : st.get_attachment aid = some a)
    (hrev : a.current_revision = some rev)
    (hu : is_untrusted req = true) :
    raw_file s hd st req aid fn = .streaming
      { body := rev.file.content
        content_type := rev.mime_type
        content_length := rev.file.size
        last_modified := hd rev.created
        x_frame_options := "ALLOW-FROM " ++ s.DOMAIN
        cc_public := true
        cc_max_age := 900 } ∧
    (raw_file s hd st req aid fn).status = 200 := by
  have h : raw_file s hd st req aid fn = .streaming
      { body := rev.file.content
        content_type := rev.mime_type
        content_length := rev.file.size
        last_modified := hd rev.created
        x_frame_options := "ALLOW-FROM " ++ s.DOMAIN
        cc_public := true
        cc_max_age := 900 } := by
    simp [raw_file, ha, hrev, hu]
  exact ⟨h, by rw [h]; rfl⟩

/-- Witness for C2: the sample attachment served untrusted. -/
theorem raw_file_untrusted_serves_witness :
    raw_file sampleSettings sampleHttpDate sampleDb untrustedGet 1
        "pic.png" =
      .streaming
        { body := [104, 105], content_type := "image/png",
          content_length := some 2, last_modified := "http-date 5",
          x_frame_options := "ALLOW-FROM developer.mozilla.org",
          cc_public := true, cc_max_age := 900 } ∧
    (raw_file sampleSettings sampleHttpDate sampleDb untrustedGet 1
      "pic.png").status = 200 := by
  have h := raw_file_untrusted_serves sampleSettings sampleHttpDate sampleDb
    untrustedGet 1 "pic.png" sampleAttachment sampleRev rfl rfl rfl
  exact ⟨h.1.trans (by rfl), h.2⟩

/-- C3: for an existing attachment with a current revision, a trusted request
to `raw_file` gets a permanent (301) redirect to the attachment's canonical
file URL, and no file content is streamed. -/
theorem raw_file_trusted_redirects (s : Settings) (hd : Nat → String)
    (st : DbState) (req : Request) (aid : Nat) (fn : String)
    (a : Attachment) (rev : AttachmentRevision)
    (ha : st.get_attachment aid = some a)
    (hrev : a.current_revision = some rev)
    (hu : is_untrusted req = false) :
    raw_file s hd st req aid fn = .redirect true a.file_url ∧
    (raw_file s hd st req aid fn).status = 301 ∧
    (raw_file s hd st req aid fn).is_streaming = false := by
  have h : raw_file s hd st req aid fn = .redirect true a.file_url := by
    simp [raw_file, ha, hrev, hu]
  exact ⟨h, by rw [h]; rfl, by rw [h]; rfl⟩

/-- Witness for C3: the sample attachment requested trusted. -/
theorem raw_file_trusted_redirects_witness :
    raw_file sampleSettings sampleHttpDate sampleDb trustedGet 1 "pic.png" =
      .redirect true "/files/1/pic.png" := by
  have h := raw_file_trusted_redirects sampleSettings sampleHttpDate
    sampleDb trustedGet 1 "pic.png" sampleAttachment sampleRev rfl rfl rfl
  exact h.1.trans (by rfl)

/-- C7: `mindtouch_file_redirect` returns 404 exactly when no attachment's
legacy identifier matches; when exactly one attachment matches, it returns a
permanent (301) redirect to that attachment's canonical file URL. The
embedding is a pure function of the state, so the response is its only
effect. -/
theorem mindtouch_redirect_contract (st : DbState) (req : Request)
    (fid : Nat) (fn : String) :
    (mindtouch_file_redirect st req fid fn = .not_found ↔
      st.attachments.filter
        (fun a => a.mindtouch_attachment_id == some fid) = []) ∧
    ∀ a, st.attachments.filter
        (fun x => x.mindtouch_attachment_id == some fid) = [a] →
      mindtouch_file_redirect st req fid fn = .redirect true a.file_url ∧
      (mindtouch_file_redirect st req fid fn).status = 301 := by
  constructor
  · cases h : st.get_by_mindtouch_id fid with
    | none =>
      have hnone := List.find?_eq_none.mp h
      simp only [mindtouch_file_redirect, h]
      simp only [List.filter_eq_nil_iff]
      constructor
      · intro _ a ha
        exact hnone a ha
      · intro _
        trivial
    | some a =>
      have hmem := List.mem_of_find?_eq_some h
      have hpa := List.find?_some h
      simp only [mindtouch_file_redirect, h]
      constructor
      · intro hcontra
        exact absurd hcontra (by simp)
      · intro hfil
        exact absurd (List.filter_eq_nil_iff.mp hfil a hmem) (by simp [hpa])
  · intro a hfil
    have hfind : st.get_by_mindtouch_id fid = some a :=
      find?_eq_of_filter_eq_singleton _ _ _ hfil
    have h : mindtouch_file_redirect st req fid fn =
        .redirect true a.file_url := by
      simp [mindtouch_file_redirect, hfind]
    exact ⟨h, by rw [h]; rfl⟩

/-- Witness for C7: the sample legacy identifier 7 matches exactly the sample
attachment and is redirected to its canonical file URL. -/
theorem mindtouch_redirect_contract_witness :
    mindtouch_file_redirect sampleDb untrustedGet 7 "pic.png" =
      .redirect true "/files/1/pic.png" := by
  have h := ((mindtouch_redirect_contract sampleDb untrustedGet 7
    "pic.png").2 sampleAttachment (by rfl)).1
  exact h.trans (by rfl)

/-- C8: on an untrusted serve of an attachment with a current revision, if
the storage size query succeeds the Content-Length header equals that size;
if it fails the header is simply omitted while every other header is still
set and a 200 streaming response is still returned. -/
theorem raw_file_content_length_best_effort (s : Settings)
    (hd : Nat → String) (st : DbState) (req : Request) (aid : Nat)
    (fn : String) (a : Attachment) (rev : AttachmentRevision)
    (ha : st.get_attachment aid = some a)
    (hrev : a.current_revision = some rev)
    (hu : is_untrusted req = true) :
    (∀ n, rev.file.size = some n →
      raw_file s hd st req aid fn = .streaming
        { body := rev.file.content, content_type := rev.mime_type,
          content_length := some n, last_modified := hd rev.created,
          x_frame_options := "ALLOW-FROM " ++ s.DOMAIN,
          cc_public := true, cc_max_age := 900 }) ∧
    (rev.file.size = none →
      raw_file s hd st req aid fn = .streaming
        { body := rev.file.content, content_type := rev.mime_type,
          content_length := none, last_modified := hd rev.created,
          x_frame_options := "ALLOW-FROM " ++ s.DOMAIN,
          cc_public := true, cc_max_age := 900 } ∧
      (raw_file s hd st req aid fn).status = 200) := by
  constructor
  · intro n hn
    simp [raw_file, ha, hrev, hu, hn]
  · intro hn
    have h : raw_file s hd st req aid fn = .streaming
        { body := rev.file.content, content_type := rev.mime_type,
          content_length := none, last_modified := hd rev.created,
          x_frame_options := "ALLOW-FROM " ++ s.DOMAIN,
          cc_public := true, cc_max_age := 900 } := by
      simp [raw_file, ha, hrev, hu, hn]
    exact ⟨h, by rw [h]; rfl⟩

/-- Witness for C8: the size-failing sample attachment is still served 200
with the Content-Length header omitted and all other headers present. -/
theorem raw_file_content_length_witness :
    raw_file sampleSettings sampleHttpDate sampleDb untrustedGet 3
        "nosize.txt" =
      .streaming
        { body := [104, 105], content_type := "text/plain",
          content_length := none, last_modified := "http-date 6",
          x_frame_options := "ALLOW-FROM developer.mozilla.org",
          cc_public := true, cc_max_age := 900 } := by
  have h := raw_file_content_length_best_effort sampleSettings
    sampleHttpDate sampleDb untrustedGet 3 "nosize.txt" attachmentNoSize
    sampleRevNoSize rfl rfl rfl
  exact ((h.2 rfl).1).trans (by rfl)

/-- C9: neither `raw_file` nor `mindtouch_file_redirect` depends on its
`filename` argument in any way: for any two filenames the entire response is
identical. -/
theorem filename_independence (s : Settings) (hd : Nat → String)
    (st : DbState) (req : Request) (aid fid : Nat) (fn₁ fn₂ : String) :
    raw_file s hd st req aid fn₁ = raw_file s hd st req aid fn₂ ∧
    mindtouch_file_redirect st req fid fn₁ =
      mindtouch_file_redirect st req fid fn₂ :=
  ⟨rfl, rfl⟩

/-- C4: a valid POST by an authenticated, permitted user on an existing
document creates exactly one new Attachment carrying the form's title and
exactly one new Revision with creator set to the acting user, links the
revision to the attachment, persists it, records the document association
with the acting user and the revision, and redirects to the document's edit
URL — the write trace lists those steps in that order. -/
theorem edit_attachment_upload_success (docs : List Document)
    (perm : User → Bool) (st : DbState) (req : Request)
    (slug locale : String) (doc : Document)
    (hauth : req.user.is_authenticated = true)
    (hdoc : find_document docs locale slug = some doc)
    (hpost : req.method = "POST")
    (hperm : perm req.user = true)
    (hvalid : req.form.is_valid = true) :
    edit_attachment docs perm st req slug locale =
      (.redirect false doc.edit_url,
        { attachments := st.attachments ++
            [{ id := st.next_attachment_id, title := req.form.title }],
          revisions := st.revisions ++
            [{ id := st.next_revision_id, title := req.form.title,
               file := req.form.file, mime_type := req.form.mime_type,
               created := req.form.created, creator := some req.user.id,
               attachment := some st.next_attachment_id }],
          document_files := st.document_files ++
            [(doc.id, st.next_attachment_id, req.user.id,
              st.next_revision_id)],
          next_attachment_id := st.next_attachment_id + 1,
          next_revision_id := st.next_revision_id + 1 },
        [.create_attachment st.next_attachment_id req.form.title,
         .save_revision st.next_revision_id st.next_attachment_id
           req.user.id req.form.title,
         .attach_to_document st.next_attachment_id doc.id req.user.id
           st.next_revision_id]) := by
  simp [edit_attachment, attach, BoundForm.save_no_commit, hauth, hdoc,
    hpost, hperm, hvalid]

/-- Witness for C4: the valid sample POST creates the expected attachment,
revision, association and trace. -/
theorem edit_attachment_upload_success_witness :
    edit_attachment sampleDocs permAll sampleDb validPost "Article"
        "en-US" =
      (.redirect false "/en-US/docs/Article/edit",
        { attachments := [sampleAttachment, attachmentNoRev,
            attachmentNoSize, { id := 4, title := "pic" }],
          revisions := [sampleRev, sampleRevNoSize,
            { id := 13, title := "pic", file := sampleFile,
              mime_type := "image/png", created := 5, creator := some 10,
              attachment := some 4 }],
          document_files := [(21, 4, 10, 13)],
          next_attachment_id := 5,
          next_revision_id := 14 },
        [.create_attachment 4 "pic", .save_revision 13 4 10 "pic",
         .attach_to_document 4 21 10 13]) := by
  have h := edit_attachment_upload_success sampleDocs permAll sampleDb
    validPost "Article" "en-US" sampleDoc rfl rfl rfl rfl rfl
  exact h.trans (by rfl)

/-- C5: an invalid POST by an authenticated, permitted user on an existing
document re-renders the upload template (HTTP 200) with the bound form —
whose error list is non-empty — and the resolved document in context, and
leaves the persistent state unchanged with an empty write trace. -/
theorem edit_attachment_invalid_form (docs : List Document)
    (perm : User → Bool) (st : DbState) (req : Request)
    (slug locale : String) (doc : Document)
    (hauth : req.user.is_authenticated = true)
    (hdoc : find_document docs locale slug = some doc)
    (hpost : req.method = "POST")
    (hperm : perm req.user = true)
    (hinvalid : req.form.is_valid = false) :
    edit_attachment docs perm st req slug locale =
      (.rendered "attachments/edit_attachment.html" req.form doc.id,
        st, []) ∧
    req.form.errors ≠ [] ∧
    (HttpResponse.rendered "attachments/edit_attachment.html" req.form
      doc.id).status = 200 := by
  refine ⟨by simp [edit_attachment, hauth, hdoc, hpost, hperm, hinvalid],
    ?_, rfl⟩
  intro hcontra
  rw [BoundForm.is_valid, hcontra] at hinvalid
  simp at hinvalid

/-- Witness for C5: the invalid sample POST re-renders with the bound form
and creates nothing. -/
theorem edit_attachment_invalid_form_witness :
    edit_attachment sampleDocs permAll sampleDb invalidPost "Article"
        "en-US" =
      (.rendered "attachments/edit_attachment.html" invalidForm 21,
        sampleDb, []) ∧
    invalidForm.errors ≠ [] := by
  have h := edit_attachment_invalid_form sampleDocs permAll sampleDb
    invalidPost "Article" "en-US" sampleDoc rfl rfl rfl rfl rfl
  exact ⟨h.1.trans (by rfl), h.2.1⟩

/-- C6: a POST by an authenticated user lacking upload permission on an
existing document raises the permission-denied condition (HTTP 403) and
leaves the persistent state unchanged with an empty write trace. -/
theorem edit_attachment_permission_denied (docs : List Document)
    (perm : User → Bool) (st : DbState) (req : Request)
    (slug locale : String) (doc : Document)
    (hauth : req.user.is_authenticated = true)
    (hdoc : find_document docs locale slug = some doc)
    (hpost : req.method = "POST")
    (hperm : perm req.user = false) :
    edit_attachment docs perm st req slug locale =
      (.permission_denied, st, []) ∧
    HttpResponse.permission_denied.status = 403 := by
  exact ⟨by simp [edit_attachment, hauth, hdoc, hpost, hperm], rfl⟩

/-- Witness for C6: the valid sample POST under the denying permission
predicate is rejected with 403 and no writes. -/
theorem edit_attachment_permission_denied_witness :
    edit_attachment sampleDocs permNone sampleDb validPost "Article"
        "en-US" = (.permission_denied, sampleDb, []) :=
  (edit_attachment_permission_denied sampleDocs permNone sampleDb validPost
    "Article" "en-US" sampleDoc rfl rfl rfl rfl).1

/-- C10: for an authenticated user on an existing document,
`edit_attachment` raises permission-denied exactly when the method is POST
and the user lacks upload permission; every non-POST request redirects to
the document's edit URL with no writes, and on the non-POST path the result
is the same under any permission predicate — the predicate is never
consulted. -/
theorem edit_attachment_permission_only_on_post (docs : List Document)
    (perm : User → Bool) (st : DbState) (req : Request)
    (slug locale : String) (doc : Document)
    (hauth : req.user.is_authenticated = true)
    (hdoc : find_document docs locale slug = some doc) :
    ((edit_attachment docs perm st req slug locale).1 =
        .permission_denied ↔
      req.method = "POST" ∧ perm req.user = false) ∧
    (req.method ≠ "POST" →
      edit_attachment docs perm st req slug locale =
        (.redirect false doc.edit_url, st, []) ∧
      ∀ other : User → Bool,
        edit_attachment docs other st req slug locale =
          edit_attachment docs perm st req slug locale) := by
  constructor
  · by_cases hm : req.method = "POST"
    · by_cases hp : perm req.user = true
      · by_cases hv : req.form.is_valid = true
        · simp [edit_attachment, hauth, hdoc, hm, hp, hv]
        · simp [edit_attachment, hauth, hdoc, hm, hp, hv]
      · simp [edit_attachment, hauth, hdoc, hm,
          Bool.not_eq_true _ ▸ hp]
    · simp [edit_attachment, hauth, hdoc, hm]
  · intro hm
    refine ⟨by simp [edit_attachment, hauth, hdoc, hm], fun other => ?_⟩
    simp [edit_attachment, hauth, hdoc, hm]

/-- Witness for C10: the sample GET request is redirected identically under
the granting and the denying permission predicates, with no writes. -/
theorem edit_attachment_non_post_witness :
    edit_attachment sampleDocs permNone sampleDb untrustedGet "Article"
        "en-US" =
      (.redirect false "/en-US/docs/Article/edit", sampleDb, []) ∧
    edit_attachment sampleDocs permAll sampleDb untrustedGet "Article"
        "en-US" =
      edit_attachment sampleDocs permNone sampleDb untrustedGet "Article"
        "en-US" := by
  have h := edit_attachment_permission_only_on_post sampleDocs permNone
    sampleDb untrustedGet "Article" "en-US" sampleDoc rfl rfl
  have h2 := h.2 (by decide)
  exact ⟨h2.1.trans (by rfl), h2.2 permAll⟩

end Kuma
